import Mathlib

/-!
# Formal model of `signalwire_adapter.py`

A shallow embedding of the SignalWire-to-vCon adapter
(`src/signalwire_adapter.py`) together with proofs about its assembly
pipeline, polling loop, and delivery semantics.

Network traffic is modelled by passing each HTTP exchange's outcome
(`HttpResult`) as an explicit argument; Python exceptions are modelled with
`Except PyError`; the vCon builder library is modelled as a record of lists
with append operations, matching its documented behaviour.
-/

namespace SignalwireAdapter

/-- JSON values as returned by the provider API (`response.json()` in the
source). -/
inductive Json where
  | null : Json
  | str (s : String) : Json
  | num (n : Int) : Json
  | bool (b : Bool) : Json
  | arr (elems : List Json) : Json
  | obj (fields : List (String × Json)) : Json

/-- Dictionary lookup `d[k]` on a JSON object: `some v` when the key is
present, `none` otherwise (Python would raise `KeyError`). -/
def Json.lookup (j : Json) (k : String) : Option Json :=
  match j with
  | .obj fields => List.lookup k fields
  | _ => none

/-- Python key-membership test `k in d` on a JSON object. -/
def Json.hasKey (j : Json) (k : String) : Bool :=
  (j.lookup k).isSome

/-- Python exception classes that the adapter can raise or catch. -/
inductive PyError where
  | keyError (key : String) : PyError
  | valueError : PyError
  | typeError : PyError
  | requestException (msg : String) : PyError
  | jsonDecodeError : PyError
  | exceptionRaised (msg : String) : PyError
deriving DecidableEq

/-- One HTTP exchange as seen by the adapter: either the transport failed
(`requests` raises a `RequestException`) or a response arrived with a status
code and a body that may or may not parse as JSON (`none` models a body that
makes `response.json()` raise). -/
inductive HttpResult where
  | transportError (msg : String) : HttpResult
  | response (status : Nat) (jsonBody : Option Json) : HttpResult

/-- Embeds `fetch_call_meta` (src/signalwire_adapter.py:65-87): issues one GET
for the call and returns `response.json()` without inspecting the status code.
A transport failure propagates out of `requests.request`; a body that is not
JSON makes `response.json()` raise.  There is no `status_code` check in this
function, unlike `fetch_new_recordings` and `fetch_transcription`. -/
def fetch_call_meta (res : HttpResult) : Except PyError Json :=
  match res with
  | .transportError m => .error (.requestException m)
  | .response _ body =>
    match body with
    | some j => .ok j
    | none => .error .jsonDecodeError

/-- Embeds `fetch_transcription` (src/signalwire_adapter.py:121-135): GET, then
return `response.json()` when the status is 200, else raise `Exception`. -/
def fetch_transcription (res : HttpResult) : Except PyError Json :=
  match res with
  | .transportError m => .error (.requestException m)
  | .response status body =>
    if status = 200 then
      match body with
      | some j => .ok j
      | none => .error .jsonDecodeError
    else .error (.exceptionRaised "Failed to fetch transcription")

/-- One recording object from the provider recordings list, with the fields the
source reads via `recording[...]` (src/signalwire_adapter.py:137-196). -/
structure Recording where
  sid : String
  call_sid : String
  account_sid : String
  date_created : String
  duration : String
  channels : String
  uri : String
  subresource_uris : List (String × String)

/-- One party entry of a vCon, as built by `Party({"tel": ...})`. -/
structure Party where
  tel : Json

/-- One dialog entry of a vCon, with the fields the source passes to the
`Dialog` constructor (src/signalwire_adapter.py:169-174). -/
structure Dialog where
  start : Option String
  parties : List Nat
  type : String
  duration : String
  url : String
  mimetype : String

/-- One attachment of a vCon, as built by `vcon.add_attachment(type, body)`. -/
structure Attachment where
  type : String
  body : Json

/-- The vCon document, modelling the builder from the `vcon` library that the
adapter drives: ordered lists of parties, dialog entries and attachments. -/
structure Vcon where
  parties : List Party
  dialog : List Dialog
  attachments : List Attachment

/-- Models `Vcon.build_new()`: an empty document. -/
def Vcon.build_new : Vcon :=
  { parties := [], dialog := [], attachments := [] }

/-- Models `vcon.add_party(p)`: appends a party. -/
def Vcon.add_party (v : Vcon) (p : Party) : Vcon :=
  { v with parties := v.parties ++ [p] }

/-- Models `vcon.add_dialog(d)`: appends a dialog entry. -/
def Vcon.add_dialog (v : Vcon) (d : Dialog) : Vcon :=
  { v with dialog := v.dialog ++ [d] }

/-- Models `vcon.add_attachment(type=t, body=b)`: appends an attachment. -/
def Vcon.add_attachment (v : Vcon) (t : String) (b : Json) : Vcon :=
  { v with attachments := v.attachments ++ [⟨t, b⟩] }

/-- Python slicing `s[:-5]`: all characters of `s` except the last five (the
empty string when `s` has five or fewer characters, matching Python's clamped
negative indexing). -/
def sliceDropLast5 (s : String) : String :=
  ⟨s.data.take (s.data.length - 5)⟩

/-- Embeds the audio-URL computation (src/signalwire_adapter.py:166-168):
concatenate `SPACE_URL` with `recording['uri']`, drop the final five
characters (the slice `[:-5]`, intended to remove ".json"), and append
".mp3".  The drop is unconditional: the uri's actual suffix is never
examined. -/
def dialogRecordingUrl (spaceUrl uri : String) : String :=
  sliceDropLast5 (spaceUrl ++ uri) ++ ".mp3"

/-- Outcome of `email.utils.parsedate_to_datetime` followed by `.isoformat()`.
The parser is the CPython standard library, external to this repository; on
CPython 3.10 and later a timestamp it cannot parse raises `ValueError`, while
on 3.9 and earlier the same failure surfaced as `TypeError` (unpacking the
`None` returned by `parsedate_tz`).  The outcome for a given `date_created`
string is supplied as an oracle so the embedding stays executable. -/
inductive ParseOutcome where
  | ok (iso : String) : ParseOutcome
  | raisesTypeError : ParseOutcome
  | raisesValueError : ParseOutcome

/-- Embeds the `try`/`except TypeError` around the RFC-2822 conversion
(src/signalwire_adapter.py:150-156): a `TypeError` is caught (a warning is
logged and the value becomes `None`); any other exception from the parse, such
as the `ValueError` that CPython 3.10+ raises for an unparsable string,
propagates out. -/
def dateCreatedIso (parsedate : String → ParseOutcome) (date_created : String) :
    Except PyError (Option String) :=
  match parsedate date_created with
  | .ok iso => .ok (some iso)
  | .raisesTypeError => .ok none
  | .raisesValueError => .error .valueError

/-- The body of the `recording_metadata` attachment
(src/signalwire_adapter.py:176-185): recording identifiers, channel count, and
the fixed source label. -/
def recordingMetadataBody (r : Recording) : Json :=
  Json.obj [("sid", .str r.sid), ("account_sid", .str r.account_sid),
    ("call_sid", .str r.call_sid), ("channels", .str r.channels),
    ("source", .str "SignalWire")]

/-- Embeds the transcription loop (src/signalwire_adapter.py:190-195): for each
entry of the fetched list, in order, add a `transcription` attachment exactly
when the entry has a `"text"` key (`if 'text' in transcription`). -/
def addTranscriptionAttachments (v : Vcon) (ts : List Json) : Vcon :=
  ts.foldl
    (fun acc t => if t.hasKey "text" then acc.add_attachment "transcription" t else acc)
    v

/-- The document built by the straight-line part of
`create_vcon_from_recording` (src/signalwire_adapter.py:145-185): a fresh
vCon, the two parties in order (`to_formatted` then `from_formatted`), the
single recording dialog entry, and the metadata attachment. -/
def baseVcon (tel1 tel2 : Json) (iso : Option String) (spaceUrl : String)
    (r : Recording) : Vcon :=
  (((Vcon.build_new.add_party ⟨tel1⟩).add_party ⟨tel2⟩).add_dialog
      { start := iso, parties := [0, 1], type := "recording",
        duration := r.duration, url := dialogRecordingUrl spaceUrl r.uri,
        mimetype := "audio/mpeg" }).add_attachment "recording_metadata"
    (recordingMetadataBody r)

/-- Embeds `create_vcon_from_recording` (src/signalwire_adapter.py:137-196):
fetch call metadata (exception propagates), convert `date_created` under the
`except TypeError` guard, add the two parties from `to_formatted` and
`from_formatted` (a missing key raises `KeyError`), add the dialog entry with
the derived audio URL, add the metadata attachment, and, when the recording
lists a `transcriptions` subresource, fetch it and add one attachment per
entry having a `"text"` key.  A value under `"transcriptions"` that is not a
list is modelled as `TypeError` (iteration over a non-sequence). -/
def create_vcon_from_recording (parsedate : String → ParseOutcome)
    (callMetaRes transcriptionRes : HttpResult) (spaceUrl : String)
    (recording : Recording) : Except PyError Vcon :=
  match fetch_call_meta callMetaRes with
  | .error e => .error e
  | .ok call_meta =>
    match dateCreatedIso parsedate recording.date_created with
    | .error e => .error e
    | .ok recording_date_created_iso =>
      match call_meta.lookup "to_formatted" with
      | none => .error (.keyError "to_formatted")
      | some tel1 =>
        match call_meta.lookup "from_formatted" with
        | none => .error (.keyError "from_formatted")
        | some tel2 =>
          if (List.lookup "transcriptions" recording.subresource_uris).isSome then
            match fetch_transcription transcriptionRes with
            | .error e => .error e
            | .ok resp =>
              match resp.lookup "transcriptions" with
              | some (.arr ts) =>
                .ok (addTranscriptionAttachments
                  (baseVcon tel1 tel2 recording_date_created_iso spaceUrl recording) ts)
              | some _ => .error .typeError
              | none => .error (.keyError "transcriptions")
          else .ok (baseVcon tel1 tel2 recording_date_created_iso spaceUrl recording)

/-- The fully assembled document: the base document plus the transcription
attachments for the fetched entries (an empty list when the recording has no
`transcriptions` subresource). -/
def assembledVcon (tel1 tel2 : Json) (iso : Option String) (spaceUrl : String)
    (r : Recording) (ts : List Json) : Vcon :=
  addTranscriptionAttachments (baseVcon tel1 tel2 iso spaceUrl r) ts

/-- The webhook POST timeout, in seconds (`timeout=10` at
src/signalwire_adapter.py:212). -/
def webhookTimeoutSeconds : Nat := 10

/-- What `send_vcon_to_webhook` logs for one delivery: an info line on success
or an error line on failure. -/
inductive DeliveryLog where
  | success : DeliveryLog
  | failure (msg : String) : DeliveryLog
deriving DecidableEq

/-- Embeds `response.raise_for_status()` from the `requests` library: it raises
`HTTPError` (a `RequestException`) exactly for status codes 400-599, and does
nothing for any other status. -/
def raise_for_status (status : Nat) : Except PyError Unit :=
  if 400 ≤ status ∧ status < 600 then .error (.requestException "HTTPError")
  else .ok ()

/-- The body of the `try` block in `send_vcon_to_webhook`
(src/signalwire_adapter.py:211-214): one POST (a transport failure raises a
`RequestException`) followed by `raise_for_status`. -/
def webhookAttempt (postRes : HttpResult) : Except PyError Unit :=
  match postRes with
  | .transportError m => .error (.requestException m)
  | .response status _ => raise_for_status status

/-- Whether an exception is a `requests.exceptions.RequestException`, the class
named by the `except` clause in `send_vcon_to_webhook`. -/
def isRequestException : PyError → Bool
  | .requestException _ => true
  | _ => false

/-- Embeds `send_vcon_to_webhook` (src/signalwire_adapter.py:206-216): the
serialized document is POSTed once with `timeout=10`; every
`RequestException` from the attempt is caught and logged as a failed delivery;
nothing is retried and nothing propagates to the caller. -/
def send_vcon_to_webhook (postRes : HttpResult) : DeliveryLog :=
  match webhookAttempt postRes with
  | .ok _ => .success
  | .error _ => .failure "Failed to send vCon to webhook"

/-- What the per-recording loop of `process_recordings` logs for one recording
(src/signalwire_adapter.py:221-232): either the vCon was built and handed to
delivery, or the exception raised inside the `try` block was caught and logged
as an error for this recording. -/
inductive RecordingOutcome where
  | processed (sid : String) (delivery : DeliveryLog) : RecordingOutcome
  | loggedError (sid : String) (e : PyError) : RecordingOutcome
deriving DecidableEq

/-- Embeds the per-recording `try`/`except Exception` body
(src/signalwire_adapter.py:224-232): assemble the vCon, then deliver it; any
exception raised by either step is caught and logged, producing
`loggedError` instead of propagating. -/
def processOneRecording (assemble : Recording → Except PyError Vcon)
    (deliver : Vcon → Except PyError DeliveryLog) (r : Recording) :
    RecordingOutcome :=
  match assemble r with
  | .error e => .loggedError r.sid e
  | .ok v =>
    match deliver v with
    | .error e => .loggedError r.sid e
    | .ok d => .processed r.sid d

/-- Embeds `process_recordings` (src/signalwire_adapter.py:218-232): the fetch
step runs first and its exception propagates to the caller; on success the
per-recording loop handles every recording of the batch in order, each under
its own `try`/`except`.  The fetch step is represented by its result and the
assemble/deliver steps by the functions the loop calls. -/
def process_recordings (fetched : Except PyError (List Recording))
    (assemble : Recording → Except PyError Vcon)
    (deliver : Vcon → Except PyError DeliveryLog) :
    Except PyError (List RecordingOutcome) :=
  match fetched with
  | .error e => .error e
  | .ok recs => .ok (recs.map (processOneRecording assemble deliver))

/-- What one iteration of the `while running` loop records
(src/signalwire_adapter.py:240-249): the batch outcomes, or the error from the
fetch step caught by the top-level `try`/`except` in `main`. -/
inductive CycleOutcome where
  | batch (outcomes : List RecordingOutcome) : CycleOutcome
  | loggedMainLoopError (e : PyError) : CycleOutcome
deriving DecidableEq

/-- Embeds the `try`/`except` around `process_recordings` in `main`
(src/signalwire_adapter.py:244-247): any exception is caught and logged and
the loop proceeds to update `last_check_time` and sleep. -/
def mainCycle (fetched : Except PyError (List Recording))
    (assemble : Recording → Except PyError Vcon)
    (deliver : Vcon → Except PyError DeliveryLog) : CycleOutcome :=
  match process_recordings fetched assemble deliver with
  | .ok outs => .batch outs
  | .error e => .loggedMainLoopError e

/-- The state of the main loop that the polling claims are about: the
`last_check_time` value and the current wall-clock reading.  Time is measured
in seconds as an integer and `datetime.utcnow()` is assumed non-decreasing. -/
structure LoopState where
  last_check : Int
  clock : Int
deriving DecidableEq

/-- Embeds the startup initialization (src/signalwire_adapter.py:236):
`last_check_time = datetime.utcnow() - timedelta(seconds=POLL_INTERVAL)`. -/
def initLoopState (startClock pollInterval : Int) : LoopState :=
  { last_check := startClock - pollInterval, clock := startClock }

/-- Embeds one iteration of the `while running` loop
(src/signalwire_adapter.py:240-258): `current_time` is read from the clock at
the start of the cycle; the batch then takes `batchDur` seconds;
`last_check_time` is set to `current_time` (the pre-batch reading, line 249);
the loop then sleeps `sleepDur` seconds before the clock is read again. -/
def loopCycle (batchDur sleepDur : Int) (s : LoopState) : LoopState :=
  let current_time := s.clock
  { last_check := current_time, clock := s.clock + batchDur + sleepDur }

/-- The loop state after running the cycles described by `cycles` (one batch
duration and sleep duration per cycle) from process start. -/
def runLoop (startClock pollInterval : Int) (cycles : List (Int × Int)) :
    LoopState :=
  cycles.foldl (fun s c => loopCycle c.1 c.2 s) (initLoopState startClock pollInterval)

/-- The interpreter state touched by `signal_handler`: the global `running`
flag and whether the shutdown log line was emitted. -/
structure SignalState where
  running : Bool
  shutdownLogged : Bool
deriving DecidableEq

/-- Embeds `signal_handler` (src/signalwire_adapter.py:53-57): logs the
shutdown and clears the `running` flag. -/
def signal_handler (_s : SignalState) : SignalState :=
  { running := false, shutdownLogged := true }

/-- The global `running` flag as a function of time, in seconds from the start
of the sleep, when a shutdown signal arrives at `signalTick`: the handler has
run (flag cleared) from that tick on. -/
def runningAt (signalTick t : Nat) : Bool :=
  decide (t < signalTick)

/-- Embeds the inter-cycle sleep (src/signalwire_adapter.py:255-258): up to
`POLL_INTERVAL` iterations, each checking the `running` flag and breaking when
it is cleared, otherwise sleeping one second.  The value returned is the
number of one-second sleeps performed; time advances one second per sleep from
`startTick`. -/
def interruptibleSleepTicks (running : Nat → Bool) (startTick : Nat) :
    Nat → Nat
  | 0 => 0
  | n + 1 =>
    if running startTick then 1 + interruptibleSleepTicks running (startTick + 1) n
    else 0

/-- Spec-side predicate, for comparison with the source: a transcription entry
"contains nonempty text", i.e. has a `"text"` field holding a nonempty
string. -/
def hasNonemptyText (t : Json) : Bool :=
  match t.lookup "text" with
  | some (.str s) => !(s.isEmpty)
  | _ => false

/-! ## Concrete sample data used to evaluate the model -/

/-- A well-formed call-metadata body, as returned for an existing call. -/
def callMetaOk : Json :=
  Json.obj [("to_formatted", .str "+15550001111"),
    ("from_formatted", .str "+15550002222")]

/-- The JSON error body SignalWire returns with an HTTP 404: it carries no
`to_formatted` or `from_formatted` key. -/
def err404Body : Json :=
  Json.obj [("code", .num 20404),
    ("message", .str "The requested resource was not found")]

/-- A parse oracle for timestamps the parser accepts: the ISO rendering is
taken to be the input string itself. -/
def parsedateAccepts : String → ParseOutcome :=
  fun s => ParseOutcome.ok s

/-- A recording with the given identifiers, a parseable creation date, a
JSON-suffixed uri and no transcription subresource. -/
def sampleRecording (sid call_sid : String) : Recording :=
  { sid := sid, call_sid := call_sid, account_sid := "AC1",
    date_created := "Tue, 01 Oct 2024 12:00:00 +0000", duration := "30",
    channels := "1", uri := "/Recordings/" ++ sid ++ ".json",
    subresource_uris := [] }

/-- The provider's call-metadata endpoint in a scenario where call CA2 does not
exist (HTTP 404 with a JSON error body) and every other call does. -/
def callMetaEnv (r : Recording) : HttpResult :=
  if r.call_sid = "CA2" then .response 404 (some err404Body)
  else .response 200 (some callMetaOk)

/-- The assembly step of the 404 scenario: `create_vcon_from_recording` run
against `callMetaEnv` with a fixed space URL. -/
def assembleScenario (r : Recording) : Except PyError Vcon :=
  create_vcon_from_recording parsedateAccepts (callMetaEnv r)
    (HttpResult.response 200 none) "https://sp.example.com" r

/-- A delivery step that always succeeds. -/
def deliverOk : Vcon → Except PyError DeliveryLog :=
  fun _ => Except.ok DeliveryLog.success

/-- A transcription entry whose `"text"` field is present but empty. -/
def emptyTextEntry : Json :=
  Json.obj [("text", Json.str "")]

/-- A recording that lists a `transcriptions` subresource. -/
def transcribedRecording : Recording :=
  { sampleRecording "RE5" "CA5" with
    subresource_uris := [("transcriptions", "/T5.json")] }

/-- The transcription endpoint response containing the single empty-text
entry. -/
def transcriptionRes0 : HttpResult :=
  .response 200 (some (Json.obj [("transcriptions", Json.arr [emptyTextEntry])]))

/-- A recording whose uri ends in ".wav" rather than ".json". -/
def wavRecording : Recording :=
  { sampleRecording "RE9" "CA9" with uri := "/api/RE9.wav" }

/-- A recording whose `date_created` field is not a parsable timestamp. -/
def badDateRecording : Recording :=
  { sampleRecording "RE3" "CA3" with date_created := "not-a-timestamp" }

/-- The document assembled in the nominal scenario for recording RE1. -/
def sampleAssembled : Vcon :=
  assembledVcon (Json.str "+15550001111") (Json.str "+15550002222")
    (some "Tue, 01 Oct 2024 12:00:00 +0000") "https://sp.example.com"
    (sampleRecording "RE1" "CA1") []

/-- The document assembled for the transcribed recording RE5, whose single
transcription entry carries an empty text field. -/
def sampleTranscribedAssembled : Vcon :=
  assembledVcon (Json.str "+15550001111") (Json.str "+15550002222")
    (some "Tue, 01 Oct 2024 12:00:00 +0000") "https://sp.example.com"
    transcribedRecording [emptyTextEntry]

/-- The document assembled for the ".wav"-suffixed recording RE9. -/
def wavAssembled : Vcon :=
  assembledVcon (Json.str "+15550001111") (Json.str "+15550002222")
    (some "Tue, 01 Oct 2024 12:00:00 +0000") "https://sp.example.com"
    wavRecording []

/-! ## Helper lemmas -/

/-- The transcription loop appends, in order, one `transcription` attachment
per entry that has a `"text"` key, and touches nothing else. -/
theorem addTranscriptionAttachments_eq (v : Vcon) (ts : List Json) :
    addTranscriptionAttachments v ts =
      { v with attachments := v.attachments ++
          ((ts.filter (fun t => t.hasKey "text")).map
            (fun t => Attachment.mk "transcription" t)) } := by
  induction ts generalizing v with
  | nil => simp [addTranscriptionAttachments]
  | cons t ts ih =>
    simp only [addTranscriptionAttachments, List.foldl_cons] at ih ⊢
    by_cases h : t.hasKey "text"
    · simp only [h, if_true, List.filter_cons_of_pos, List.map_cons]
      rw [ih]
      simp [Vcon.add_attachment, List.append_assoc]
    · simp only [h, if_false, List.filter_cons_of_neg, Bool.false_eq_true,
        not_false_eq_true]
      rw [ih]

/-- The parties of the assembled document are the two parties of the base
document. -/
theorem assembledVcon_parties (tel1 tel2 : Json) (iso : Option String)
    (sp : String) (r : Recording) (ts : List Json) :
    (assembledVcon tel1 tel2 iso sp r ts).parties = [⟨tel1⟩, ⟨tel2⟩] := by
  rw [assembledVcon, addTranscriptionAttachments_eq]
  rfl

/-- The dialog of the assembled document is the single recording entry. -/
theorem assembledVcon_dialog (tel1 tel2 : Json) (iso : Option String)
    (sp : String) (r : Recording) (ts : List Json) :
    (assembledVcon tel1 tel2 iso sp r ts).dialog =
      [{ start := iso, parties := [0, 1], type := "recording",
         duration := r.duration, url := dialogRecordingUrl sp r.uri,
         mimetype := "audio/mpeg" }] := by
  rw [assembledVcon, addTranscriptionAttachments_eq]
  rfl

/-- The attachments of the assembled document: the metadata attachment followed
by the filtered, order-preserved transcription attachments. -/
theorem assembledVcon_attachments (tel1 tel2 : Json) (iso : Option String)
    (sp : String) (r : Recording) (ts : List Json) :
    (assembledVcon tel1 tel2 iso sp r ts).attachments =
      Attachment.mk "recording_metadata" (recordingMetadataBody r) ::
        (ts.filter (fun t => t.hasKey "text")).map
          (fun t => Attachment.mk "transcription" t) := by
  rw [assembledVcon, addTranscriptionAttachments_eq]
  rfl

/-- Any successful run of `create_vcon_from_recording` went through a
successful call-metadata fetch, a non-raising date conversion, and both party
lookups, and produced exactly the assembled document; the transcription list
is empty when the recording lists no `transcriptions` subresource and is
otherwise the array fetched from the transcription endpoint. -/
theorem create_vcon_ok_shape (pd : String → ParseOutcome) (cm tr : HttpResult)
    (sp : String) (r : Recording) (v : Vcon)
    (h : create_vcon_from_recording pd cm tr sp r = Except.ok v) :
    ∃ call_meta tel1 tel2 iso ts,
      fetch_call_meta cm = Except.ok call_meta
      ∧ Json.lookup call_meta "to_formatted" = some tel1
      ∧ Json.lookup call_meta "from_formatted" = some tel2
      ∧ dateCreatedIso pd r.date_created = Except.ok iso
      ∧ v = assembledVcon tel1 tel2 iso sp r ts
      ∧ ((List.lookup "transcriptions" r.subresource_uris).isSome = false →
          ts = [])
      ∧ ((List.lookup "transcriptions" r.subresource_uris).isSome = true →
          ∃ resp, fetch_transcription tr = Except.ok resp
            ∧ Json.lookup resp "transcriptions" = some (Json.arr ts)) := by
  cases hcm : fetch_call_meta cm with
  | error e => simp [create_vcon_from_recording, hcm] at h
  | ok call_meta =>
  cases hiso : dateCreatedIso pd r.date_created with
  | error e => simp [create_vcon_from_recording, hcm, hiso] at h
  | ok iso =>
  cases hto : Json.lookup call_meta "to_formatted" with
  | none => simp [create_vcon_from_recording, hcm, hiso, hto] at h
  | some tel1 =>
  cases hfrom : Json.lookup call_meta "from_formatted" with
  | none => simp [create_vcon_from_recording, hcm, hiso, hto, hfrom] at h
  | some tel2 =>
  by_cases hsub : (List.lookup "transcriptions" r.subresource_uris).isSome = true
  · cases htr : fetch_transcription tr with
    | error e =>
      simp [create_vcon_from_recording, hcm, hiso, hto, hfrom, hsub, htr] at h
    | ok resp =>
    cases hts : Json.lookup resp "transcriptions" with
    | none =>
      simp [create_vcon_from_recording, hcm, hiso, hto, hfrom, hsub, htr, hts] at h
    | some jv =>
    cases jv with
    | arr ts =>
      have hv : addTranscriptionAttachments (baseVcon tel1 tel2 iso sp r) ts = v := by
        simpa [create_vcon_from_recording, hcm, hiso, hto, hfrom, hsub, htr, hts]
          using h
      refine ⟨call_meta, tel1, tel2, iso, ts, rfl, hto, hfrom, rfl, hv.symm, ?_, ?_⟩
      · intro hfalse; rw [hfalse] at hsub; simp at hsub
      · intro _; exact ⟨resp, rfl, hts⟩
    | null =>
      simp [create_vcon_from_recording, hcm, hiso, hto, hfrom, hsub, htr, hts] at h
    | str s =>
      simp [create_vcon_from_recording, hcm, hiso, hto, hfrom, hsub, htr, hts] at h
    | num n =>
      simp [create_vcon_from_recording, hcm, hiso, hto, hfrom, hsub, htr, hts] at h
    | bool b =>
      simp [create_vcon_from_recording, hcm, hiso, hto, hfrom, hsub, htr, hts] at h
    | obj fields =>
      simp [create_vcon_from_recording, hcm, hiso, hto, hfrom, hsub, htr, hts] at h
  · have hv : baseVcon tel1 tel2 iso sp r = v := by
      simpa [create_vcon_from_recording, hcm, hiso, hto, hfrom, hsub] using h
    refine ⟨call_meta, tel1, tel2, iso, [], rfl, hto, hfrom, rfl, hv.symm, ?_, ?_⟩
    · intro _; rfl
    · intro htrue; exact absurd htrue hsub

/-- Running one more cycle folds `loopCycle` over the state reached so far. -/
theorem runLoop_append (t0 p : Int) (cs : List (Int × Int)) (c : Int × Int) :
    runLoop t0 p (cs ++ [c]) = loopCycle c.1 c.2 (runLoop t0 p cs) := by
  simp [runLoop, List.foldl_append]

/-- Folding cycles with non-negative batch and sleep durations preserves the
invariant that `last_check` never exceeds the clock. -/
theorem foldl_loopCycle_last_check_le (cs : List (Int × Int)) :
    ∀ s : LoopState, (∀ x ∈ cs, 0 ≤ x.1 ∧ 0 ≤ x.2) → s.last_check ≤ s.clock →
      (cs.foldl (fun s c => loopCycle c.1 c.2 s) s).last_check ≤
        (cs.foldl (fun s c => loopCycle c.1 c.2 s) s).clock := by
  induction cs with
  | nil => intro s _ hle; simpa using hle
  | cons c cs ih =>
    intro s hmem hle
    simp only [List.foldl_cons]
    apply ih
    · intro x hx; exact hmem x (List.mem_cons_of_mem _ hx)
    · obtain ⟨h1, h2⟩ := hmem c (List.mem_cons_self _ _)
      simp only [loopCycle]
      omega

/-- The `last_check` invariant holds of every reachable loop state, given a
non-negative poll interval and non-negative cycle durations. -/
theorem runLoop_last_check_le_clock (t0 p : Int) (hp : 0 ≤ p)
    (cs : List (Int × Int)) (hcs : ∀ x ∈ cs, 0 ≤ x.1 ∧ 0 ≤ x.2) :
    (runLoop t0 p cs).last_check ≤ (runLoop t0 p cs).clock := by
  apply foldl_loopCycle_last_check_le cs _ hcs
  simp only [initLoopState]
  omega

/-- The number of one-second sleeps the interruptible sleep performs from tick
`t`, with a budget of `n` ticks and a signal arriving at tick `s`, is
`min (s - t) n`: the loop breaks at the first tick at which the flag is
clear. -/
theorem interruptibleSleepTicks_runningAt (s : Nat) :
    ∀ (n t : Nat),
      interruptibleSleepTicks (runningAt s) t n = min (s - t) n := by
  intro n
  induction n with
  | zero => intro t; simp [interruptibleSleepTicks]
  | succ n ih =>
    intro t
    simp only [interruptibleSleepTicks, runningAt]
    by_cases h : t < s
    · rw [if_pos (by simpa using h), ih]
      omega
    · rw [if_neg (by simpa using h)]
      omega

/-- Dropping the last five characters of a string that ends in ".json" strips
exactly that suffix. -/
theorem sliceDropLast5_append_json (s : String) :
    sliceDropLast5 (s ++ ".json") = s := by
  cases s with
  | mk l =>
    show String.mk ((l ++ ".json".data).take ((l ++ ".json".data).length - 5)) =
      String.mk l
    congr 1
    have h5 : ".json".data.length = 5 := rfl
    rw [List.length_append, h5, Nat.add_sub_cancel]
    simp [List.take_append]

/-! ## Claims -/

/-- C1: for every recording for which assembly succeeds, the document built by
`create_vcon_from_recording` has exactly 2 parties, exactly 1 dialog entry
whose type is "recording" and whose parties field is [0, 1], and exactly 1
`recording_metadata` attachment carrying sid, account_sid, call_sid, channels
and the fixed source label "SignalWire"; every remaining attachment is a
transcription attachment. -/
theorem assembled_record_shape (pd : String → ParseOutcome)
    (cm tr : HttpResult) (sp : String) (r : Recording) (v : Vcon)
    (h : create_vcon_from_recording pd cm tr sp r = Except.ok v) :
    v.parties.length = 2
    ∧ v.dialog.length = 1
    ∧ (∀ d ∈ v.dialog, d.type = "recording" ∧ d.parties = [0, 1])
    ∧ v.attachments.filter (fun a => a.type == "recording_metadata") =
        [Attachment.mk "recording_metadata" (recordingMetadataBody r)]
    ∧ (∀ a ∈ v.attachments,
        a.type = "recording_metadata" ∨ a.type = "transcription") := by
  obtain ⟨cmj, tel1, tel2, iso, ts, _, _, _, _, hv, _, _⟩ :=
    create_vcon_ok_shape pd cm tr sp r v h
  subst hv
  refine ⟨?_, ?_, ?_, ?_, ?_⟩
  · rw [assembledVcon_parties]; rfl
  · rw [assembledVcon_dialog]; rfl
  · rw [assembledVcon_dialog]
    intro d hd
    simp only [List.mem_singleton] at hd
    subst hd
    exact ⟨rfl, rfl⟩
  · rw [assembledVcon_attachments]
    simp [List.filter_cons, List.filter_map, Function.comp]
  · rw [assembledVcon_attachments]
    intro a ha
    rcases List.mem_cons.mp ha with h1 | h2
    · left; rw [h1]
    · right
      obtain ⟨t, _, h3⟩ := List.mem_map.mp h2
      rw [← h3]

/-- Witness for C1: the nominal RE1 scenario. -/
theorem assembled_record_shape_witness :
    sampleAssembled.parties.length = 2
    ∧ sampleAssembled.dialog.length = 1
    ∧ (∀ d ∈ sampleAssembled.dialog, d.type = "recording" ∧ d.parties = [0, 1])
    ∧ sampleAssembled.attachments.filter (fun a => a.type == "recording_metadata") =
        [Attachment.mk "recording_metadata"
          (recordingMetadataBody (sampleRecording "RE1" "CA1"))]
    ∧ (∀ a ∈ sampleAssembled.attachments,
        a.type = "recording_metadata" ∨ a.type = "transcription") :=
  assembled_record_shape parsedateAccepts
    (HttpResult.response 200 (some callMetaOk)) (HttpResult.response 200 none)
    "https://sp.example.com" (sampleRecording "RE1" "CA1") sampleAssembled
    (by rfl)

/-- C2: a batch whose fetch succeeded is processed recording by recording, each
under its own catch: the outcome list has one entry per recording, each entry
depends only on its own recording, an assembly or delivery error becomes a
logged outcome rather than aborting the rest, and a fetch error is caught by
the cycle-level guard so the loop proceeds. -/
theorem fault_isolation (assemble : Recording → Except PyError Vcon)
    (deliver : Vcon → Except PyError DeliveryLog) :
    (∀ recs, process_recordings (Except.ok recs) assemble deliver =
        Except.ok (recs.map (processOneRecording assemble deliver)))
    ∧ (∀ r e, assemble r = Except.error e →
        processOneRecording assemble deliver r =
          RecordingOutcome.loggedError r.sid e)
    ∧ (∀ r v e, assemble r = Except.ok v → deliver v = Except.error e →
        processOneRecording assemble deliver r =
          RecordingOutcome.loggedError r.sid e)
    ∧ (∀ e, mainCycle (Except.error e) assemble deliver =
        CycleOutcome.loggedMainLoopError e)
    ∧ (∀ recs, mainCycle (Except.ok recs) assemble deliver =
        CycleOutcome.batch (recs.map (processOneRecording assemble deliver))) := by
  refine ⟨fun recs => rfl, ?_, ?_, fun e => rfl, fun recs => rfl⟩
  · intro r e he
    simp [processOneRecording, he]
  · intro r v e hv hd
    simp [processOneRecording, hv, hd]

/-- Witness for C2: a three-recording batch in which the middle recording's
call-metadata fetch yields the 404 error body; the other two are still
processed and delivered. -/
theorem fault_isolation_witness :
    process_recordings
        (Except.ok [sampleRecording "RE1" "CA1", sampleRecording "RE2" "CA2",
          sampleRecording "RE3" "CA3"]) assembleScenario deliverOk =
      Except.ok [RecordingOutcome.processed "RE1" DeliveryLog.success,
        RecordingOutcome.loggedError "RE2" (PyError.keyError "to_formatted"),
        RecordingOutcome.processed "RE3" DeliveryLog.success]
    ∧ processOneRecording assembleScenario deliverOk (sampleRecording "RE2" "CA2") =
        RecordingOutcome.loggedError "RE2" (PyError.keyError "to_formatted")
    ∧ processOneRecording (fun _ => Except.ok Vcon.build_new)
        (fun _ => Except.error (PyError.requestException "broken pipe"))
        (sampleRecording "RE1" "CA1") =
      RecordingOutcome.loggedError "RE1" (PyError.requestException "broken pipe") :=
  ⟨(fault_isolation assembleScenario deliverOk).1 _,
    (fault_isolation assembleScenario deliverOk).2.1 _ _ (by rfl),
    (fault_isolation (fun _ => Except.ok Vcon.build_new)
        (fun _ => Except.error (PyError.requestException "broken pipe"))).2.2.1
      (sampleRecording "RE1" "CA1") Vcon.build_new _ (by rfl) (by rfl)⟩

/-- C3 (code bug): the source catches only `TypeError` around the timestamp
conversion, but on current CPython (3.10 and later)
`email.utils.parsedate_to_datetime` raises `ValueError` for a malformed
timestamp, so assembly of that recording aborts instead of producing a
document with an absent dialog start; under the pre-3.10 `TypeError`
behaviour, which the `except` clause was written for, the claim holds and the
dialog start is absent. -/
theorem malformed_date_aborts_assembly :
    create_vcon_from_recording (fun _ => ParseOutcome.raisesValueError)
        (HttpResult.response 200 (some callMetaOk)) (HttpResult.response 200 none)
        "https://sp.example.com" badDateRecording
      = Except.error PyError.valueError
    ∧ (create_vcon_from_recording (fun _ => ParseOutcome.raisesTypeError)
        (HttpResult.response 200 (some callMetaOk)) (HttpResult.response 200 none)
        "https://sp.example.com" badDateRecording).map
          (fun v => v.dialog.map (fun d => d.start))
      = Except.ok [none] :=
  ⟨rfl, rfl⟩

/-- C4 counterexample: a non-2xx (HTTP 404) call-metadata response with a JSON
body is returned as metadata by `fetch_call_meta`, not turned into a fetch
error — the function performs no status check. -/
theorem fetch_call_meta_404_returns_body :
    fetch_call_meta (HttpResult.response 404 (some err404Body)) =
      Except.ok err404Body :=
  rfl

/-- C4 as amended: `fetch_call_meta` raises only on a transport error or a
non-JSON body and never inspects the status code, returning the parsed body of
any response that has one; an HTTP 404 whose JSON error body lacks
`to_formatted` still causes assembly of that one recording to be abandoned —
via the `KeyError` on the party lookup — and logged, while the other
recordings of the batch are processed. -/
theorem fetch_call_meta_no_status_check (status : Nat) (body : Json)
    (m : String) (pd : String → ParseOutcome) (tr : HttpResult) (sp : String)
    (r : Recording) (cmBody : Json) (iso : Option String)
    (hpd : dateCreatedIso pd r.date_created = Except.ok iso)
    (hmiss : Json.lookup cmBody "to_formatted" = none) :
    fetch_call_meta (HttpResult.response status (some body)) = Except.ok body
    ∧ fetch_call_meta (HttpResult.transportError m) =
        Except.error (PyError.requestException m)
    ∧ fetch_call_meta (HttpResult.response status none) =
        Except.error PyError.jsonDecodeError
    ∧ create_vcon_from_recording pd (HttpResult.response 404 (some cmBody)) tr sp r
        = Except.error (PyError.keyError "to_formatted")
    ∧ mainCycle
        (Except.ok [sampleRecording "RE1" "CA1", sampleRecording "RE2" "CA2",
          sampleRecording "RE3" "CA3"]) assembleScenario deliverOk =
      CycleOutcome.batch [RecordingOutcome.processed "RE1" DeliveryLog.success,
        RecordingOutcome.loggedError "RE2" (PyError.keyError "to_formatted"),
        RecordingOutcome.processed "RE3" DeliveryLog.success] := by
  refine ⟨rfl, rfl, rfl, ?_, by rfl⟩
  simp [create_vcon_from_recording, fetch_call_meta, hpd, hmiss]

/-- Witness for the amended C4, at the RE2 404 scenario. -/
theorem fetch_call_meta_no_status_check_witness :
    fetch_call_meta (HttpResult.response 404 (some err404Body)) =
      Except.ok err404Body
    ∧ fetch_call_meta (HttpResult.transportError "timed out") =
        Except.error (PyError.requestException "timed out")
    ∧ fetch_call_meta (HttpResult.response 404 none) =
        Except.error PyError.jsonDecodeError
    ∧ create_vcon_from_recording parsedateAccepts
        (HttpResult.response 404 (some err404Body)) (HttpResult.response 200 none)
        "https://sp.example.com" (sampleRecording "RE2" "CA2")
        = Except.error (PyError.keyError "to_formatted")
    ∧ mainCycle
        (Except.ok [sampleRecording "RE1" "CA1", sampleRecording "RE2" "CA2",
          sampleRecording "RE3" "CA3"]) assembleScenario deliverOk =
      CycleOutcome.batch [RecordingOutcome.processed "RE1" DeliveryLog.success,
        RecordingOutcome.loggedError "RE2" (PyError.keyError "to_formatted"),
        RecordingOutcome.processed "RE3" DeliveryLog.success] :=
  fetch_call_meta_no_status_check 404 err404Body "timed out" parsedateAccepts
    (HttpResult.response 200 none) "https://sp.example.com"
    (sampleRecording "RE2" "CA2") err404Body
    (some "Tue, 01 Oct 2024 12:00:00 +0000") (by rfl) (by rfl)

/-- C5 counterexample: a transcription entry whose `"text"` field holds the
empty string does not "contain nonempty text", yet the code adds a
transcription attachment for it — the loop only tests key presence. -/
theorem transcription_empty_text_included :
    (create_vcon_from_recording parsedateAccepts
        (HttpResult.response 200 (some callMetaOk)) transcriptionRes0
        "https://sp.example.com" transcribedRecording).map
      (fun v => v.attachments.filter (fun a => a.type == "transcription"))
      = Except.ok [Attachment.mk "transcription" emptyTextEntry]
    ∧ List.filter (fun t => hasNonemptyText t) [emptyTextEntry] = [] :=
  ⟨rfl, rfl⟩

/-- C5 as amended: the assembled document contains one transcription
attachment for exactly those fetched entries that have a `"text"` key —
whatever its value, including the empty string — in provider order; entries
lacking the key are silently skipped, and zero such entries yield zero
transcription attachments. -/
theorem transcription_attachments_key_filter (pd : String → ParseOutcome)
    (cm tr : HttpResult) (sp : String) (r : Recording) (v : Vcon)
    (resp : Json) (ts : List Json)
    (hsub : (List.lookup "transcriptions" r.subresource_uris).isSome = true)
    (htr : fetch_transcription tr = Except.ok resp)
    (hts : Json.lookup resp "transcriptions" = some (Json.arr ts))
    (h : create_vcon_from_recording pd cm tr sp r = Except.ok v) :
    v.attachments.filter (fun a => a.type == "transcription") =
      (ts.filter (fun t => t.hasKey "text")).map
        (fun t => Attachment.mk "transcription" t) := by
  obtain ⟨cmj, tel1, tel2, iso, ts2, _, _, _, _, hv, _, hsome⟩ :=
    create_vcon_ok_shape pd cm tr sp r v h
  obtain ⟨resp2, htr2, hts2⟩ := hsome hsub
  rw [htr] at htr2
  obtain rfl := Except.ok.inj htr2
  rw [hts] at hts2
  obtain rfl := Json.arr.inj (Option.some.inj hts2)
  subst hv
  rw [assembledVcon_attachments]
  simp [List.filter_cons, List.filter_map, Function.comp]

/-- Witness for the amended C5, at the RE5 scenario with one empty-text
entry. -/
theorem transcription_attachments_key_filter_witness :
    sampleTranscribedAssembled.attachments.filter
        (fun a => a.type == "transcription") =
      [Attachment.mk "transcription" emptyTextEntry] :=
  transcription_attachments_key_filter parsedateAccepts
    (HttpResult.response 200 (some callMetaOk)) transcriptionRes0
    "https://sp.example.com" transcribedRecording sampleTranscribedAssembled
    (Json.obj [("transcriptions", Json.arr [emptyTextEntry])]) [emptyTextEntry]
    (by rfl) (by rfl) (by rfl) (by rfl)

/-- C6: `last_check` starts at `now - pollInterval`; after each cycle it equals
the clock reading captured at that cycle's start — the batch duration `c.1`
and the sleep `c.2` elapse after that reading, as the clock equation shows —
and the value is monotonically non-decreasing across cycles. -/
theorem last_check_window_tracking (t0 p : Int) (cs : List (Int × Int))
    (c : Int × Int) (hp : 0 ≤ p) (hcs : ∀ x ∈ cs, 0 ≤ x.1 ∧ 0 ≤ x.2) :
    (runLoop t0 p []).last_check = t0 - p
    ∧ (runLoop t0 p (cs ++ [c])).last_check = (runLoop t0 p cs).clock
    ∧ (runLoop t0 p (cs ++ [c])).clock = (runLoop t0 p cs).clock + c.1 + c.2
    ∧ (runLoop t0 p cs).last_check ≤ (runLoop t0 p (cs ++ [c])).last_check := by
  refine ⟨rfl, ?_, ?_, ?_⟩
  · rw [runLoop_append]; rfl
  · rw [runLoop_append]; rfl
  · rw [runLoop_append]
    have hinv := runLoop_last_check_le_clock t0 p hp cs hcs
    simpa [loopCycle] using hinv

/-- Witness for C6: two concrete cycles at poll interval 300 starting at clock
1000. -/
theorem last_check_window_tracking_witness :
    (runLoop 1000 300 []).last_check = 700
    ∧ (runLoop 1000 300 [(5, 300), (7, 300)]).last_check =
        (runLoop 1000 300 [(5, 300)]).clock
    ∧ (runLoop 1000 300 [(5, 300), (7, 300)]).clock =
        (runLoop 1000 300 [(5, 300)]).clock + 7 + 300
    ∧ (runLoop 1000 300 [(5, 300)]).last_check ≤
        (runLoop 1000 300 [(5, 300), (7, 300)]).last_check :=
  last_check_window_tracking 1000 300 [(5, 300)] (7, 300) (by decide)
    (by decide)

/-- C7 counterexample: HTTP 304 is not a 2xx status, yet delivery logs it as a
success — `raise_for_status` raises only for 400-599. -/
theorem webhook_304_logged_success :
    send_vcon_to_webhook (HttpResult.response 304 none) = DeliveryLog.success
    ∧ ¬(200 ≤ 304 ∧ 304 < 300) :=
  ⟨rfl, by decide⟩

/-- C7 as amended: delivery issues one POST with a 10-second timeout and
classifies a transport error or any status in 400-599 as failure (a non-2xx
status below 400 is treated as success by `raise_for_status`); the failure is
only logged — every exception the attempt can raise is a `RequestException`,
which the handler catches, so nothing propagates and no retry happens — and a
webhook HTTP 500 leaves the recording's outcome `processed` with a logged
failed delivery, so the loop proceeds. -/
theorem delivery_classification (postRes : HttpResult) (m : String)
    (st : Nat) (body : Option Json) (r : Recording) :
    send_vcon_to_webhook (HttpResult.transportError m) =
        DeliveryLog.failure "Failed to send vCon to webhook"
    ∧ (400 ≤ st → st < 600 →
        send_vcon_to_webhook (HttpResult.response st body) =
          DeliveryLog.failure "Failed to send vCon to webhook")
    ∧ (st < 400 ∨ 600 ≤ st →
        send_vcon_to_webhook (HttpResult.response st body) = DeliveryLog.success)
    ∧ (∀ e, webhookAttempt postRes = Except.error e → isRequestException e = true)
    ∧ webhookTimeoutSeconds = 10
    ∧ processOneRecording (fun _ => Except.ok Vcon.build_new)
        (fun _ => Except.ok (send_vcon_to_webhook (HttpResult.response 500 none)))
        r =
      RecordingOutcome.processed r.sid
        (DeliveryLog.failure "Failed to send vCon to webhook") := by
  refine ⟨rfl, ?_, ?_, ?_, rfl, rfl⟩
  · intro h1 h2
    simp [send_vcon_to_webhook, webhookAttempt, raise_for_status, h1, h2]
  · intro hout
    have hne : ¬(400 ≤ st ∧ st < 600) := by omega
    simp [send_vcon_to_webhook, webhookAttempt, raise_for_status, hne]
  · intro e he
    cases postRes with
    | transportError m2 =>
      cases he
      rfl
    | response st2 body2 =>
      simp only [webhookAttempt, raise_for_status] at he
      by_cases hin : 400 ≤ st2 ∧ st2 < 600
      · rw [if_pos hin] at he
        cases he
        rfl
      · rw [if_neg hin] at he
        cases he

/-- Witness for the amended C7, at a transport failure, a 500, a 304 and the
500-delivery recording outcome. -/
theorem delivery_classification_witness :
    send_vcon_to_webhook (HttpResult.transportError "connection reset") =
        DeliveryLog.failure "Failed to send vCon to webhook"
    ∧ send_vcon_to_webhook (HttpResult.response 500 none) =
        DeliveryLog.failure "Failed to send vCon to webhook"
    ∧ send_vcon_to_webhook (HttpResult.response 304 none) = DeliveryLog.success
    ∧ isRequestException (PyError.requestException "HTTPError") = true
    ∧ webhookTimeoutSeconds = 10
    ∧ processOneRecording (fun _ => Except.ok Vcon.build_new)
        (fun _ => Except.ok (send_vcon_to_webhook (HttpResult.response 500 none)))
        (sampleRecording "RE1" "CA1") =
      RecordingOutcome.processed "RE1"
        (DeliveryLog.failure "Failed to send vCon to webhook") :=
  ⟨(delivery_classification (HttpResult.response 500 none) "connection reset"
      500 none (sampleRecording "RE1" "CA1")).1,
    (delivery_classification (HttpResult.response 500 none) "connection reset"
      500 none (sampleRecording "RE1" "CA1")).2.1 (by decide) (by decide),
    (delivery_classification (HttpResult.response 500 none) "connection reset"
      304 none (sampleRecording "RE1" "CA1")).2.2.1 (Or.inl (by decide)),
    (delivery_classification (HttpResult.response 500 none) "connection reset"
      500 none (sampleRecording "RE1" "CA1")).2.2.2.1
      (PyError.requestException "HTTPError") (by rfl),
    (delivery_classification (HttpResult.response 500 none) "connection reset"
      500 none (sampleRecording "RE1" "CA1")).2.2.2.2.1,
    (delivery_classification (HttpResult.response 500 none) "connection reset"
      500 none (sampleRecording "RE1" "CA1")).2.2.2.2.2⟩

/-- C8: when the recording uri ends in ".json", the dialog url of the
assembled document is exactly the space base URL, the uri with that suffix
stripped, and ".mp3" appended — nothing else in the string is altered. -/
theorem audio_url_strips_json_suffix (pd : String → ParseOutcome)
    (cm tr : HttpResult) (sp stem : String) (r : Recording) (v : Vcon)
    (huri : r.uri = stem ++ ".json")
    (h : create_vcon_from_recording pd cm tr sp r = Except.ok v) :
    v.dialog.map (fun d => d.url) = [sp ++ stem ++ ".mp3"]
    ∧ dialogRecordingUrl sp r.uri = sp ++ stem ++ ".mp3" := by
  have hurl : dialogRecordingUrl sp r.uri = sp ++ stem ++ ".mp3" := by
    rw [huri, dialogRecordingUrl, ← String.append_assoc,
      sliceDropLast5_append_json, String.append_assoc]
  refine ⟨?_, hurl⟩
  obtain ⟨cmj, tel1, tel2, iso, ts, _, _, _, _, hv, _, _⟩ :=
    create_vcon_ok_shape pd cm tr sp r v h
  subst hv
  rw [assembledVcon_dialog]
  simp [hurl]

/-- Witness for C8: the nominal RE1 scenario, whose uri is
"/Recordings/RE1.json". -/
theorem audio_url_strips_json_suffix_witness :
    sampleAssembled.dialog.map (fun d => d.url) =
        ["https://sp.example.com/Recordings/RE1.mp3"]
    ∧ dialogRecordingUrl "https://sp.example.com" "/Recordings/RE1.json" =
        "https://sp.example.com/Recordings/RE1.mp3" :=
  audio_url_strips_json_suffix parsedateAccepts
    (HttpResult.response 200 (some callMetaOk)) (HttpResult.response 200 none)
    "https://sp.example.com" "/Recordings/RE1" (sampleRecording "RE1" "CA1")
    sampleAssembled (by rfl) (by rfl)

/-- C9: once the shutdown signal arrives at tick `s` of the inter-cycle sleep
(with `s` inside the sleep budget `p`), the sleep loop performs exactly `s`
one-second sleeps — so the sleep in progress when the signal arrives is the
last one, ending within one second — the `while running` guard then reads a
cleared flag and starts no new cycle, and `signal_handler` both clears the
flag and logs the shutdown. -/
theorem shutdown_within_one_tick (s p : Nat) (hsp : s < p) :
    interruptibleSleepTicks (runningAt s) 0 p = s
    ∧ runningAt s s = false
    ∧ (∀ st : SignalState, (signal_handler st).running = false
        ∧ (signal_handler st).shutdownLogged = true) := by
  refine ⟨?_, ?_, fun st => ⟨rfl, rfl⟩⟩
  · rw [interruptibleSleepTicks_runningAt]
    omega
  · simp [runningAt]

/-- Witness for C9: signal at tick 3 of a 300-second sleep. -/
theorem shutdown_within_one_tick_witness :
    interruptibleSleepTicks (runningAt 3) 0 300 = 3
    ∧ runningAt 3 3 = false
    ∧ (∀ st : SignalState, (signal_handler st).running = false
        ∧ (signal_handler st).shutdownLogged = true) :=
  shutdown_within_one_tick 3 300 (by decide)

/-- C10: whatever the recording uri's suffix, the dialog url of any
successfully assembled document is the concatenated space URL and uri with its
final five characters removed and ".mp3" appended — a non-".json" suffix is
silently truncated, producing a malformed URL rather than an error. -/
theorem audio_url_unconditional_truncation (pd : String → ParseOutcome)
    (cm tr : HttpResult) (sp : String) (r : Recording) (v : Vcon)
    (h : create_vcon_from_recording pd cm tr sp r = Except.ok v) :
    v.dialog.map (fun d => d.url) = [sliceDropLast5 (sp ++ r.uri) ++ ".mp3"] := by
  obtain ⟨cmj, tel1, tel2, iso, ts, _, _, _, _, hv, _, _⟩ :=
    create_vcon_ok_shape pd cm tr sp r v h
  subst hv
  rw [assembledVcon_dialog]
  rfl

/-- Witness for C10: the ".wav"-suffixed recording RE9 assembles without error
and its dialog url is the silently truncated
"https://sp.example.com/api/RE.mp3". -/
theorem audio_url_unconditional_truncation_witness :
    wavAssembled.dialog.map (fun d => d.url) =
      ["https://sp.example.com/api/RE.mp3"] :=
  audio_url_unconditional_truncation parsedateAccepts
    (HttpResult.response 200 (some callMetaOk)) (HttpResult.response 200 none)
    "https://sp.example.com" wavRecording wavAssembled (by rfl)

end SignalwireAdapter
